import Mathlib

/-
Verification of the garage storefront add-on: the browser-side selection
widget (GarageManager in the frontend script), its debounced auto-save
state machine, and the sync gateway endpoints (backend/server.js).

JavaScript strings are modelled as Lean `String`; the string operations
the code relies on (`toLowerCase`, `startsWith`, `includes`) are defined
below on the character list underlying the string, which matches the
JavaScript semantics on the ASCII data this system handles.
-/

namespace Garage

/-- JavaScript `String.prototype.toLowerCase`, character by character. -/
def jsToLower (s : String) : String := ⟨s.data.map Char.toLower⟩

/-- JavaScript `String.prototype.startsWith`. -/
def jsStartsWith (s pre : String) : Bool := pre.data.isPrefixOf s.data

/-- JavaScript `String.prototype.includes`: substring containment. -/
def jsIncludes (hay needle : String) : Bool := decide (needle.data <:+: hay.data)

/-- A catalog vehicle record as the frontend holds it: the metaobject
fields `vehicle_id`, `type` (called `vtype` here since `type` is a Lean
keyword), `year` (already coerced to a number by the list endpoint),
`make`, `model` and the optional `style`. -/
structure Vehicle where
  vehicle_id : String
  vtype : String
  year : Int
  make : String
  model : String
  style : Option String
deriving DecidableEq

/-- `GarageManager.toggleVehicle` (frontend script, lines 175-191), the
pure state change on `this.myGarage`: `findIndex` on `vehicle_id`, then
`splice(index, 1)` when found, else `push(vehicle)`. -/
def toggleVehicle (myGarage : List Vehicle) (vehicle : Vehicle) : List Vehicle :=
  match myGarage.findIdx? (fun v => v.vehicle_id == vehicle.vehicle_id) with
  | some index => myGarage.eraseIdx index
  | none => myGarage ++ [vehicle]

/-- The identifiers present in a garage list. -/
def garageIds (myGarage : List Vehicle) : List String :=
  myGarage.map (·.vehicle_id)

/-- A sequence of toggle operations applied in order. -/
def applyToggles (myGarage : List Vehicle) (vehicles : List Vehicle) : List Vehicle :=
  vehicles.foldl toggleVehicle myGarage

/-- The composite search string of `GarageManager.renderVehicleList`
(line 124): `` `${v.year} ${v.make} ${v.model} ${v.style || ''}` ``. -/
def searchStr (v : Vehicle) : String :=
  toString v.year ++ " " ++ v.make ++ " " ++ v.model ++ " " ++ v.style.getD ""

/-- What `renderVehicleList` computes before touching the DOM: the
filtered match list, the rendered slice, and whether the
"Showing X of Y results" element is appended. -/
structure RenderResult where
  vehicles : List Vehicle
  displayVehicles : List Vehicle
  showingCount : Bool
deriving DecidableEq

/-- `GarageManager.renderVehicleList` (frontend script, lines 114-168):
`if (filter)` guards the case-insensitive substring filter, the render
is capped by `slice(0, 100)`, and the results count is only shown when
`filter && displayVehicles.length < vehicles.length`. -/
def renderVehicleList (allVehicles : List Vehicle) (filter : String) : RenderResult :=
  let vehicles :=
    if filter ≠ "" then
      allVehicles.filter (fun v => jsIncludes (jsToLower (searchStr v)) (jsToLower filter))
    else allVehicles
  let displayVehicles := vehicles.take 100
  { vehicles := vehicles
    displayVehicles := displayVehicles
    showingCount := decide (filter ≠ "") && decide (displayVehicles.length < vehicles.length) }

/-- Modelled from the spec's words for comparison (§4.2): filter by
case-insensitive substring match against a composite of
`category + year + make + model + style`. The code's composite omits
the category. -/
def specFilterMatch (v : Vehicle) (filter : String) : Bool :=
  jsIncludes
    (jsToLower (v.vtype ++ " " ++ toString v.year ++ " " ++ v.make ++ " " ++ v.model ++ " " ++ v.style.getD ""))
    (jsToLower filter)

/-! ## The widget's auto-save state machine

`GarageManager` holds `myGarage`, `saveTimeout` and `isSaving` as instance
fields.  Time is modelled in milliseconds as `Nat`; `saveTimeout` records
the absolute time at which the armed debounce timer fires (arming a timer
at `now` schedules it for `now + 1000`, and `clearTimeout` + `setTimeout`
is modelled by overwriting the field).  `inflight` records the request
bodies of the save network calls currently outstanding, and `saves` is an
append-only log of every save call issued, with the time it was issued
and its payload. -/

structure WidgetState where
  myGarage : List Vehicle
  saveTimeout : Option Nat
  isSaving : Bool
  inflight : List (List Vehicle)
  saves : List (Nat × List Vehicle)
deriving DecidableEq

/-- The widget right after boot: garage loaded, no timer, no save. -/
def initState (garage : List Vehicle) : WidgetState :=
  { myGarage := garage, saveTimeout := none, isSaving := false, inflight := [], saves := [] }

/-- `GarageManager.scheduleAutoSave` (lines 193-206): clear any pending
timer and arm a new one 1000ms from now. -/
def scheduleAutoSave (s : WidgetState) (now : Nat) : WidgetState :=
  { s with saveTimeout := some (now + 1000) }

/-- A toggle user event: `GarageManager.toggleVehicle` (lines 175-191)
mutates `myGarage`, re-renders, then calls `scheduleAutoSave`. -/
def toggleEvent (s : WidgetState) (v : Vehicle) (now : Nat) : WidgetState :=
  scheduleAutoSave { s with myGarage := toggleVehicle s.myGarage v } now

/-- `GarageManager.autoSaveGarage` entry (lines 219-234): the
single-flight guard `if (this.isSaving) return`, then `isSaving = true`
and one `fetch` whose body snapshots the current `myGarage`. -/
def autoSaveGarage (s : WidgetState) (now : Nat) : WidgetState :=
  if s.isSaving then s
  else
    { s with
      isSaving := true
      inflight := s.inflight ++ [s.myGarage]
      saves := s.saves ++ [(now, s.myGarage)] }

/-- The armed debounce timer firing at its scheduled time: the timeout
ceases to exist and its callback runs `autoSaveGarage`.  A `fire` whose
time does not match an armed timer is a no-op. -/
def fireTimer (s : WidgetState) (now : Nat) : WidgetState :=
  if s.saveTimeout = some now then
    autoSaveGarage { s with saveTimeout := none } now
  else s

/-- Completion of the oldest outstanding save call (lines 236-253):
whether the fetch resolved ok or threw, the only state change is the
`finally` block clearing `isSaving`; `myGarage` is untouched and no
network call is made.  `success` only selects which transient indicator
is shown. -/
def completeSave (s : WidgetState) (_success : Bool) : WidgetState :=
  match s.inflight with
  | [] => s
  | _ :: rest => { s with isSaving := false, inflight := rest }

/-- The externally visible events of one widget session. -/
inductive WEvent where
  | toggle (v : Vehicle) (t : Nat)
  | fire (t : Nat)
  | complete (t : Nat) (success : Bool)
deriving DecidableEq

/-- One step of the widget's event loop. -/
def step (s : WidgetState) : WEvent → WidgetState
  | .toggle v t => toggleEvent s v t
  | .fire t => fireTimer s t
  | .complete _ success => completeSave s success

/-- A whole session: the events in arrival order. -/
def run (s : WidgetState) (events : List WEvent) : WidgetState :=
  events.foldl step s

/-- Fire the armed debounce timer if it is due at time `now`. -/
def fireDue (s : WidgetState) (now : Nat) : WidgetState :=
  match s.saveTimeout with
  | some d => if d ≤ now then fireTimer s d else s
  | none => s

/-- Process a time-ordered burst of toggles, firing the debounce timer
whenever it comes due before the next toggle. -/
def processToggles (s : WidgetState) : List (Vehicle × Nat) → WidgetState
  | [] => s
  | (v, t) :: rest => processToggles (toggleEvent (fireDue s t) v t) rest

/-- Let the armed debounce timer (if any) fire at its scheduled time
once the burst is over. -/
def finalize (s : WidgetState) : WidgetState :=
  match s.saveTimeout with
  | some d => fireTimer s d
  | none => s

/-- Each listed toggle happens strictly after `prev` and strictly less
than 1000ms after it. -/
def burstFrom (prev : Nat) : List (Vehicle × Nat) → Bool
  | [] => true
  | (_, t) :: rest => decide (prev < t) && decide (t < prev + 1000) && burstFrom t rest

/-- Consecutive toggles of the list are each less than 1000ms apart. -/
def burst : List (Vehicle × Nat) → Bool
  | [] => true
  | (_, t) :: rest => burstFrom t rest

/-- The time of the last toggle, starting from `prev`. -/
def lastTimeFrom (prev : Nat) : List (Vehicle × Nat) → Nat
  | [] => prev
  | (_, t) :: rest => lastTimeFrom t rest

/-- The time of the last toggle of a burst. -/
def lastToggleTime : List (Vehicle × Nat) → Nat
  | [] => 0
  | (_, t) :: rest => lastTimeFrom t rest

/-! ## Sync gateway: customer profile endpoints (backend/server.js)

The Remote Profile Store is an external collaborator; per the data model
it holds one value per customer under the fixed `custom`/`garage` key.
It is modelled as a key-value map from the canonical customer GID to the
stored list of vehicle identifiers (the JSON serialization on save and
deserialization on get compose to the identity on such lists). -/

/-- The GID normalization both handlers perform on `customerId`
(backend/server.js lines 137-139 and 214-216). -/
def customerGid (customerId : String) : String :=
  if jsStartsWith customerId "gid://" then customerId
  else "gid://shopify/Customer/" ++ customerId

/-- The Profile Store as a key-value map: canonical GID to stored list. -/
abbrev ProfileStore : Type := String → Option (List String)

/-- `POST /apps/customer/vehicles/save` (lines 127-202), its effect on
the store: overwrite this customer's one value with the full list. -/
def saveSelection (store : ProfileStore) (customerId : String) (vehicles : List String) :
    ProfileStore :=
  fun key => if key = customerGid customerId then some vehicles else store key

/-- `GET /apps/customer/vehicles/get` (lines 207-273): fetch the one
metafield, parse it (`[]` when absent), return the list and its count. -/
def getSelection (store : ProfileStore) (customerId : String) : List String × Nat :=
  let vehicles := (store (customerGid customerId)).getD []
  (vehicles, vehicles.length)

/-! ## Save endpoint error taxonomy (backend/server.js lines 127-202)

To settle what the handler does on a body whose `customerId` is not a
string, request-body fields are modelled as JavaScript values. -/

/-- A JavaScript value as it arrives in a parsed JSON request body. -/
inductive JsVal where
  | vStr (s : String)
  | vNum (n : Int)
  | vBool (b : Bool)
  | vNull
  | vUndefined
  | vArr (elems : List JsVal)

/-- JavaScript truthiness of a request-body value (`NaN` aside, which
JSON cannot carry). An array, even empty, is truthy. -/
def truthy : JsVal → Bool
  | .vStr s => decide (s ≠ "")
  | .vNum n => decide (n ≠ 0)
  | .vBool b => b
  | .vNull => false
  | .vUndefined => false
  | .vArr _ => true

/-- `Array.isArray`. -/
def isArray : JsVal → Bool
  | .vArr _ => true
  | _ => false

/-- What the Shopify round trip inside the handler's `try` block comes
back with. -/
inductive UpstreamResult where
  | ok
  | graphqlErrors (message : String)
  | userErrors (message : String)
  | transportError (message : String)
deriving DecidableEq

/-- How the save request ends: an HTTP response, or a synchronous
exception that escapes the handler so no response is ever sent. -/
inductive HandlerOutcome where
  | status200
  | status400 (error : String)
  | status500 (error : String)
  | uncaughtException
deriving DecidableEq

/-- `POST /apps/customer/vehicles/save` (backend/server.js lines
127-202) as a function of the two body fields and the upstream result:
the two validation checks, then `customerId.startsWith('gid://')` —
which throws a `TypeError` outside the `try`/`catch` when `customerId`
is not a string — then the `try` block mapping GraphQL errors and
userErrors to 400, success to 200, and a thrown transport error to 500. -/
def saveHandler (customerId vehicles : JsVal) (upstream : UpstreamResult) : HandlerOutcome :=
  if !truthy customerId then .status400 "customerId is required"
  else if !truthy vehicles || !isArray vehicles then .status400 "vehicles must be an array"
  else
    match customerId with
    | .vStr _ =>
      match upstream with
      | .ok => .status200
      | .graphqlErrors m => .status400 m
      | .userErrors m => .status400 m
      | .transportError m => .status500 m
    | _ => .uncaughtException

/-! ## Catalog listing with pagination (backend/server.js lines 31-122) -/

/-- A value held in a transformed vehicle object: the raw field string,
or the number that `parseInt` coerced the year to (possibly `NaN`). -/
inductive JsObjVal where
  | s (str : String)
  | n (int : Int)
  | nan
deriving DecidableEq

/-- A built-up JavaScript object, as an ordered key-value list. -/
abbrev JsObject : Type := List (String × JsObjVal)

/-- Object property read: last assignment wins. -/
def jsGet (o : JsObject) (key : String) : Option JsObjVal :=
  (o.reverse.find? (fun kv => kv.1 == key)).map (·.2)

/-- Object property write: overwrite in place, or append a new key. -/
def jsSet (o : JsObject) (key : String) (val : JsObjVal) : JsObject :=
  if o.any (fun kv => kv.1 == key) then
    o.map (fun kv => if kv.1 == key then (key, val) else kv)
  else o ++ [(key, val)]

/-- JavaScript `parseInt(s)` for base-10 input: skip leading
whitespace, an optional sign, then the leading digit run; `NaN` when no
digit is found. -/
def jsParseInt (str : String) : JsObjVal :=
  let cs := str.data.dropWhile (fun c => c == ' ' || c == '\t' || c == '\n' || c == '\r')
  let signAndRest : Int × List Char :=
    match cs with
    | '-' :: r => (-1, r)
    | '+' :: r => (1, r)
    | r => (1, r)
  let digits := signAndRest.2.takeWhile Char.isDigit
  if digits.isEmpty then .nan
  else .n (signAndRest.1 * (digits.foldl (fun acc c => acc * 10 + (c.toNat - '0'.toNat)) 0 : Nat))

/-- One metaobject node as the Remote Catalog Store returns it. -/
structure MetaNode where
  id : String
  handle : String
  fields : List (String × String)
deriving DecidableEq

/-- One page of the catalog query: nodes plus `pageInfo`. -/
structure MetaPage where
  nodes : List MetaNode
  hasNextPage : Bool
  endCursor : Option String
deriving DecidableEq

/-- The Remote Catalog Store as a behaviour: the page it returns for
each cursor (`none` is the first-page request). -/
abbrev CatalogStore : Type := Option String → MetaPage

/-- The per-node transform of the list endpoint (lines 88-104): start
from `gid` and `handle`, copy every field, then coerce a truthy `year`
field with `parseInt`. -/
def transformNode (node : MetaNode) : JsObject :=
  let vehicle : JsObject := [("gid", .s node.id), ("handle", .s node.handle)]
  let vehicle := node.fields.foldl (fun acc kv => jsSet acc kv.1 (.s kv.2)) vehicle
  match jsGet vehicle "year" with
  | some (.s y) => if y ≠ "" then jsSet vehicle "year" (jsParseInt y) else vehicle
  | _ => vehicle

/-- The pagination loop `while (hasNextPage && pageCount < 10)` (lines
59-108), with the remaining page budget as explicit fuel; returns the
accumulated vehicles and how many pages were fetched. -/
def listCatalogLoop (store : CatalogStore) :
    Nat → Option String → Bool → List JsObject → List JsObject × Nat
  | fuel, cursor, hasNextPage, allVehicles =>
    if hasNextPage then
      match fuel with
      | 0 => (allVehicles, 0)
      | fuel + 1 =>
        let page := store cursor
        let next :=
          listCatalogLoop store fuel page.endCursor page.hasNextPage
            (allVehicles ++ page.nodes.map transformNode)
        (next.1, next.2 + 1)
    else (allVehicles, 0)

/-- The success response of `GET /apps/vehicles/list` (lines 112-116). -/
structure ListVehiclesResponse where
  success : Bool
  count : Nat
  vehicles : List JsObject
deriving DecidableEq

/-- `GET /apps/vehicles/list`: run the pagination loop from a null
cursor with the 10-page safety budget and report the flattened list
with its count; also exposes how many pages were fetched. -/
def listCatalog (store : CatalogStore) : ListVehiclesResponse × Nat :=
  let result := listCatalogLoop store 10 none true []
  ({ success := true, count := result.1.length, vehicles := result.1 }, result.2)

/-- The flattened transform of `n` pages read along the cursor chain
starting at `cursor`. -/
def pagesFrom (store : CatalogStore) (cursor : Option String) : Nat → List JsObject
  | 0 => []
  | n + 1 =>
    (store cursor).nodes.map transformNode ++ pagesFrom store (store cursor).endCursor n

/-! ## Lemmas about `toggleVehicle` -/

theorem toggleVehicle_nil (v : Vehicle) : toggleVehicle [] v = [v] := rfl

/-- `toggleVehicle` steps through a cons: drop the head when its
identifier matches, otherwise keep it and recurse. -/
theorem toggleVehicle_cons (w : Vehicle) (S : List Vehicle) (v : Vehicle) :
    toggleVehicle (w :: S) v =
      if w.vehicle_id = v.vehicle_id then S else w :: toggleVehicle S v := by
  by_cases h : w.vehicle_id = v.vehicle_id
  · simp [toggleVehicle, List.findIdx?_cons, h]
  · have hb : (w.vehicle_id == v.vehicle_id) = false := beq_false_of_ne h
    simp only [toggleVehicle, List.findIdx?_cons, hb, if_neg h, Bool.false_eq_true, if_false]
    cases hfind : S.findIdx? (fun x => x.vehicle_id == v.vehicle_id) <;>
      simp [hfind, List.eraseIdx]

theorem mem_garageIds {S : List Vehicle} {x : String} :
    x ∈ garageIds S ↔ ∃ w ∈ S, w.vehicle_id = x := by
  simp [garageIds]

/-- Toggling an identifier that is absent appends the full record. -/
theorem toggleVehicle_absent (S : List Vehicle) (v : Vehicle)
    (h : v.vehicle_id ∉ garageIds S) : toggleVehicle S v = S ++ [v] := by
  induction S with
  | nil => rfl
  | cons w rest ih =>
    have hw : w.vehicle_id ≠ v.vehicle_id := by
      intro he
      exact h (mem_garageIds.mpr ⟨w, List.mem_cons_self _ _, he⟩)
    have hrest : v.vehicle_id ∉ garageIds rest := by
      intro hm
      rcases mem_garageIds.mp hm with ⟨u, hu, he⟩
      exact h (mem_garageIds.mpr ⟨u, List.mem_cons_of_mem _ hu, he⟩)
    rw [toggleVehicle_cons, if_neg hw, ih hrest]
    rfl

/-- On a deduplicated garage, toggling a present identifier removes
exactly the entry with that identifier. -/
theorem toggleVehicle_present (S : List Vehicle) (v : Vehicle)
    (hnd : (garageIds S).Nodup) (h : v.vehicle_id ∈ garageIds S) :
    toggleVehicle S v = S.filter (fun w => w.vehicle_id != v.vehicle_id) := by
  induction S with
  | nil => simp [garageIds] at h
  | cons w rest ih =>
    have hnd' : (garageIds rest).Nodup := by
      simpa [garageIds] using hnd.of_cons
    by_cases hw : w.vehicle_id = v.vehicle_id
    · rw [toggleVehicle_cons, if_pos hw]
      rw [List.filter_cons_of_neg (by simp [hw])]
      have hwnot : w.vehicle_id ∉ garageIds rest := by
        have h2 : garageIds (w :: rest) = w.vehicle_id :: garageIds rest := rfl
        rw [h2] at hnd
        exact (List.nodup_cons.mp hnd).1
      have hrest : ∀ u ∈ rest, (u.vehicle_id != v.vehicle_id) = true := by
        intro u hu
        have hne : u.vehicle_id ≠ v.vehicle_id := by
          intro he
          exact hwnot (mem_garageIds.mpr ⟨u, hu, he.trans hw.symm⟩)
        simpa using hne
      exact (List.filter_eq_self.mpr hrest).symm
    · rw [toggleVehicle_cons, if_neg hw]
      have hv : v.vehicle_id ∈ garageIds rest := by
        rcases mem_garageIds.mp h with ⟨u, hu, he⟩
        rcases List.mem_cons.mp hu with rfl | hu'
        · exact absurd he hw
        · exact mem_garageIds.mpr ⟨u, hu', he⟩
      rw [ih hnd' hv, List.filter_cons_of_pos (by simp [hw])]

/-- Toggling preserves deduplication of the identifier list. -/
theorem nodup_toggleVehicle (S : List Vehicle) (v : Vehicle)
    (hnd : (garageIds S).Nodup) : (garageIds (toggleVehicle S v)).Nodup := by
  by_cases h : v.vehicle_id ∈ garageIds S
  · rw [toggleVehicle_present S v hnd h]
    exact ((List.filter_sublist S).map _).nodup hnd
  · rw [toggleVehicle_absent S v h]
    have happ : garageIds (S ++ [v]) = garageIds S ++ [v.vehicle_id] := by
      simp [garageIds]
    rw [happ]
    refine hnd.append (List.nodup_singleton _) ?_
    intro x hx hx'
    rw [List.mem_singleton.mp hx'] at hx
    exact h hx

theorem applyToggles_cons (S : List Vehicle) (v : Vehicle) (vs : List Vehicle) :
    applyToggles S (v :: vs) = applyToggles (toggleVehicle S v) vs := rfl

theorem nodup_applyToggles (vs : List Vehicle) :
    ∀ S : List Vehicle, (garageIds S).Nodup → (garageIds (applyToggles S vs)).Nodup := by
  induction vs with
  | nil => intro S h; exact h
  | cons v vs ih =>
    intro S h
    rw [applyToggles_cons]
    exact ih _ (nodup_toggleVehicle S v h)

/-- C5: starting from an empty Selection, every sequence of toggles
keeps at most one entry per identifier; on a deduplicated garage a
toggle of a present identifier removes exactly the matching entry, and
a toggle of an absent identifier appends the full record at the end, so
list order is insertion order. -/
theorem selection_dedup_invariant :
    (∀ vehicles : List Vehicle, (garageIds (applyToggles [] vehicles)).Nodup)
    ∧ (∀ (S : List Vehicle) (v : Vehicle), (garageIds S).Nodup →
        v.vehicle_id ∈ garageIds S →
        toggleVehicle S v = S.filter (fun w => w.vehicle_id != v.vehicle_id))
    ∧ (∀ (S : List Vehicle) (v : Vehicle), v.vehicle_id ∉ garageIds S →
        toggleVehicle S v = S ++ [v]) :=
  ⟨fun vehicles => nodup_applyToggles vehicles [] List.nodup_nil,
   toggleVehicle_present, toggleVehicle_absent⟩

/-- C4: on a Selection (deduplicated by identifier, per the data model),
toggling the same vehicle twice yields a Selection with the same set of
identifiers. -/
theorem toggle_involution (S : List Vehicle) (v : Vehicle)
    (hnd : (garageIds S).Nodup) (x : String) :
    x ∈ garageIds (toggleVehicle (toggleVehicle S v) v) ↔ x ∈ garageIds S := by
  by_cases h : v.vehicle_id ∈ garageIds S
  · rw [toggleVehicle_present S v hnd h]
    have habs : v.vehicle_id ∉
        garageIds (S.filter (fun w => w.vehicle_id != v.vehicle_id)) := by
      intro hm
      rcases mem_garageIds.mp hm with ⟨u, hu, he⟩
      have hne := (List.mem_filter.mp hu).2
      rw [he] at hne
      simp at hne
    rw [toggleVehicle_absent _ _ habs]
    constructor
    · intro hx
      rcases mem_garageIds.mp hx with ⟨u, hu, he⟩
      rcases List.mem_append.mp hu with hu' | hu'
      · exact mem_garageIds.mpr ⟨u, (List.mem_filter.mp hu').1, he⟩
      · rw [List.mem_singleton.mp hu'] at he
        exact he ▸ h
    · intro hx
      by_cases hxv : x = v.vehicle_id
      · subst hxv
        exact mem_garageIds.mpr
          ⟨v, List.mem_append_right _ (List.mem_singleton_self _), rfl⟩
      · rcases mem_garageIds.mp hx with ⟨u, hu, he⟩
        have hune : (u.vehicle_id != v.vehicle_id) = true := by
          simp only [bne_iff_ne, ne_eq]
          intro he2
          exact hxv (he.symm.trans he2)
        exact mem_garageIds.mpr
          ⟨u, List.mem_append_left _ (List.mem_filter.mpr ⟨hu, hune⟩), he⟩
  · rw [toggleVehicle_absent S v h]
    have hnd2 : (garageIds (S ++ [v])).Nodup := by
      have hh := nodup_toggleVehicle S v hnd
      rwa [toggleVehicle_absent S v h] at hh
    have hpres : v.vehicle_id ∈ garageIds (S ++ [v]) :=
      mem_garageIds.mpr ⟨v, List.mem_append_right _ (List.mem_singleton_self _), rfl⟩
    rw [toggleVehicle_present _ _ hnd2 hpres]
    have hfa : (S ++ [v]).filter (fun w => w.vehicle_id != v.vehicle_id)
        = S.filter (fun w => w.vehicle_id != v.vehicle_id) := by
      rw [List.filter_append]
      simp
    have hfs : S.filter (fun w => w.vehicle_id != v.vehicle_id) = S := by
      refine List.filter_eq_self.mpr ?_
      intro u hu
      simp only [bne_iff_ne, ne_eq]
      intro he
      exact h (mem_garageIds.mpr ⟨u, hu, he⟩)
    rw [hfa, hfs]

/-- The first record of the two-vehicle catalog the spec's §8 uses. -/
def vMustang : Vehicle :=
  { vehicle_id := "1", vtype := "Car", year := 2020, make := "Ford",
    model := "Mustang", style := none }

/-- The second record of the two-vehicle catalog the spec's §8 uses. -/
def vF150 : Vehicle :=
  { vehicle_id := "2", vtype := "Truck", year := 2021, make := "Ford",
    model := "F-150", style := none }

theorem toggle_involution_witness :
    ("2" ∈ garageIds (toggleVehicle (toggleVehicle [vMustang] vF150) vF150)
      ↔ "2" ∈ garageIds [vMustang]) :=
  toggle_involution [vMustang] vF150 (by decide) "2"

theorem selection_dedup_invariant_witness :
    (garageIds (applyToggles [] [vMustang, vF150, vMustang])).Nodup
    ∧ toggleVehicle [vMustang, vF150] vF150
        = [vMustang, vF150].filter (fun w => w.vehicle_id != vF150.vehicle_id)
    ∧ toggleVehicle [vMustang] vF150 = [vMustang] ++ [vF150] :=
  ⟨selection_dedup_invariant.1 [vMustang, vF150, vMustang],
   selection_dedup_invariant.2.1 [vMustang, vF150] vF150 (by decide) (by decide),
   selection_dedup_invariant.2.2 [vMustang] vF150 (by decide)⟩

/-- C6 (counterexample): the code's composite search string omits the
category, so a query matching only the category finds nothing — for the
one-truck catalog, "truck" matches the spec's composite but the code
returns no vehicles; and with an empty query over 101 records the match
set is truncated to 100 yet no "showing X of Y" affordance appears. -/
theorem catalog_filtering_counterexample :
    (specFilterMatch vF150 "truck" = true
      ∧ (renderVehicleList [vF150] "truck").vehicles = [])
    ∧ ((renderVehicleList (List.replicate 101 vF150) "").showingCount = false
      ∧ 100 < ((renderVehicleList (List.replicate 101 vF150) "").vehicles).length) := by
  refine ⟨⟨by decide, by decide⟩, ?_, ?_⟩
  · simp [renderVehicleList]
  · simp [renderVehicleList]

/-- C6 (amended): the filter returns exactly the items whose composite
string of year + make + model + style contains the query as a
case-insensitive substring; the empty query returns all items; the
render is capped at 100; the "showing X of Y" affordance appears
exactly when the query is non-empty and the match set was truncated;
and on the §8 two-item catalog "mustang" returns exactly the first
record, "ford" both, and "" all. -/
theorem catalog_filtering_amended :
    (∀ (catalog : List Vehicle) (q : String),
      (renderVehicleList catalog q).vehicles
        = catalog.filter (fun v => jsIncludes (jsToLower (searchStr v)) (jsToLower q)))
    ∧ (∀ (catalog : List Vehicle) (q : String),
      (renderVehicleList catalog q).displayVehicles
        = ((renderVehicleList catalog q).vehicles).take 100)
    ∧ (∀ (catalog : List Vehicle) (q : String),
      (renderVehicleList catalog q).showingCount
        = (decide (q ≠ "")
            && decide (((renderVehicleList catalog q).displayVehicles).length
              < ((renderVehicleList catalog q).vehicles).length)))
    ∧ (renderVehicleList [vMustang, vF150] "mustang").vehicles = [vMustang]
    ∧ (renderVehicleList [vMustang, vF150] "ford").vehicles = [vMustang, vF150]
    ∧ (renderVehicleList [vMustang, vF150] "").vehicles = [vMustang, vF150] := by
  refine ⟨?_, fun catalog q => rfl, fun catalog q => rfl, by decide, by decide, by decide⟩
  intro catalog q
  by_cases hq : q = ""
  · subst hq
    simp [renderVehicleList, jsIncludes, jsToLower, List.nil_infix]
  · simp [renderVehicleList, hq]

/-- C7: modelling the Profile Store as a key-value map, a save followed
by a get through any identifier normalizing to the same profile key
returns exactly the saved list together with its length. -/
theorem save_get_roundtrip (store : ProfileStore) (cid cid' : String)
    (items : List String) (h : customerGid cid = customerGid cid') :
    getSelection (saveSelection store cid items) cid' = (items, items.length) := by
  simp [getSelection, saveSelection, h]

theorem save_get_roundtrip_witness :
    customerGid "123456" = customerGid "gid://shopify/Customer/123456"
    ∧ getSelection
        (saveSelection (fun _ => none) "123456"
          ["gid://shopify/Metaobject/7", "gid://shopify/Metaobject/9"])
        "gid://shopify/Customer/123456"
      = (["gid://shopify/Metaobject/7", "gid://shopify/Metaobject/9"], 2) :=
  ⟨by decide, save_get_roundtrip _ _ _ _ (by decide)⟩

/-- C10: the save endpoint's 400/500 taxonomy presupposes a string
`customerId`: any truthy non-string `customerId` with a valid vehicles
array makes `customerId.startsWith` throw outside the `try`/`catch`, so
neither a 400 nor a 500 response is produced — while for a string
`customerId` the handler always answers with an HTTP response. -/
theorem save_error_taxonomy_precondition :
    (∀ (customerId vehicles : JsVal) (upstream : UpstreamResult),
      truthy customerId = true → (∀ s, customerId ≠ .vStr s) →
      isArray vehicles = true →
      saveHandler customerId vehicles upstream = .uncaughtException)
    ∧ (∀ (s : String) (vehicles : JsVal) (upstream : UpstreamResult),
      saveHandler (.vStr s) vehicles upstream ≠ .uncaughtException) := by
  constructor
  · intro cid veh up ht hns ha
    have hveh : truthy veh = true := by
      cases veh <;> simp_all [isArray, truthy]
    cases cid with
    | vStr s => exact absurd rfl (hns s)
    | vNum n => simp [saveHandler, ht, hveh, ha]
    | vBool b => simp [saveHandler, ht, hveh, ha]
    | vNull => simp [truthy] at ht
    | vUndefined => simp [truthy] at ht
    | vArr elems => simp [saveHandler, ht, hveh, ha]
  · intro s veh up h
    simp only [saveHandler] at h
    split at h
    · exact HandlerOutcome.noConfusion h
    · split at h
      · exact HandlerOutcome.noConfusion h
      · cases up <;> exact HandlerOutcome.noConfusion h

theorem save_error_taxonomy_witness :
    truthy (.vNum 123456) = true
    ∧ isArray (.vArr []) = true
    ∧ saveHandler (.vNum 123456) (.vArr []) .ok = .uncaughtException
    ∧ saveHandler (.vStr "123456") (.vArr []) .ok ≠ .uncaughtException :=
  ⟨by decide, rfl,
   save_error_taxonomy_precondition.1 (.vNum 123456) (.vArr []) .ok (by decide)
     (fun s h => JsVal.noConfusion h) rfl,
   save_error_taxonomy_precondition.2 "123456" (.vArr []) .ok⟩

/-- The pagination loop never fetches more pages than its fuel. -/
theorem listCatalogLoop_pages_le (store : CatalogStore) :
    ∀ (fuel : Nat) (cursor : Option String) (hasNext : Bool) (acc : List JsObject),
      (listCatalogLoop store fuel cursor hasNext acc).2 ≤ fuel := by
  intro fuel
  induction fuel with
  | zero =>
    intro cursor hasNext acc
    by_cases h : hasNext = true <;> simp [listCatalogLoop, h]
  | succ n ih =>
    intro cursor hasNext acc
    by_cases h : hasNext = true
    · simp only [listCatalogLoop, h, if_true]
      exact Nat.succ_le_succ (ih _ _ _)
    · simp [listCatalogLoop, h]

/-- Against a store that always reports another page, the loop consumes
exactly its fuel and accumulates the pages along the cursor chain. -/
theorem listCatalogLoop_always (store : CatalogStore)
    (hstore : ∀ c, (store c).hasNextPage = true) :
    ∀ (fuel : Nat) (cursor : Option String) (acc : List JsObject),
      listCatalogLoop store fuel cursor true acc
        = (acc ++ pagesFrom store cursor fuel, fuel) := by
  intro fuel
  induction fuel with
  | zero => intro cursor acc; simp [listCatalogLoop, pagesFrom]
  | succ n ih =>
    intro cursor acc
    simp only [listCatalogLoop, if_true]
    rw [hstore cursor, ih (store cursor).endCursor]
    simp [pagesFrom]

/-- C8: `listCatalog` stops after at most 10 pages for every store
behaviour; its reported count always equals the length of the returned
list; and against a store reporting `hasNextPage` on every page it
fetches exactly 10 pages and returns the flattened transform of those
10 pages. -/
theorem pagination_safety :
    (∀ store : CatalogStore, (listCatalog store).2 ≤ 10)
    ∧ (∀ store : CatalogStore,
      (listCatalog store).1.count = ((listCatalog store).1.vehicles).length)
    ∧ (∀ store : CatalogStore, (∀ c, (store c).hasNextPage = true) →
      (listCatalog store).2 = 10
      ∧ (listCatalog store).1.vehicles = pagesFrom store none 10) := by
  refine ⟨fun store => listCatalogLoop_pages_le store 10 none true [], fun store => rfl, ?_⟩
  intro store hstore
  have h := listCatalogLoop_always store hstore 10 none []
  constructor
  · simp [listCatalog, h]
  · simp [listCatalog, h]

theorem pagination_safety_witness :
    (listCatalog (fun _ =>
      { nodes := [{ id := "gid://shopify/Metaobject/1", handle := "car-2020-ford-mustang-1",
                    fields := [("year", "2020")] }],
        hasNextPage := true, endCursor := some "c" })).2 = 10
    ∧ (listCatalog (fun _ =>
      { nodes := [{ id := "gid://shopify/Metaobject/1", handle := "car-2020-ford-mustang-1",
                    fields := [("year", "2020")] }],
        hasNextPage := true, endCursor := some "c" })).1.vehicles
      = pagesFrom (fun _ =>
      { nodes := [{ id := "gid://shopify/Metaobject/1", handle := "car-2020-ford-mustang-1",
                    fields := [("year", "2020")] }],
        hasNextPage := true, endCursor := some "c" }) none 10 :=
  pagination_safety.2.2 _ (fun _ => rfl)

/-- C9: when a save attempt fails, the local Selection is unchanged, no
further network call is issued, the in-flight flag is cleared, and no
debounce is rearmed — the failed fire consumed the timer. -/
theorem save_failure_atomicity (s : WidgetState) (d : Nat)
    (hns : s.isSaving = false) (ht : s.saveTimeout = some d)
    (hin : s.inflight = []) :
    (fireTimer s d).saves = s.saves ++ [(d, s.myGarage)]
    ∧ (completeSave (fireTimer s d) false).myGarage = s.myGarage
    ∧ (completeSave (fireTimer s d) false).saves = (fireTimer s d).saves
    ∧ (completeSave (fireTimer s d) false).isSaving = false
    ∧ (completeSave (fireTimer s d) false).saveTimeout = none := by
  have h1 : fireTimer s d =
      { s with saveTimeout := none, isSaving := true,
               inflight := s.inflight ++ [s.myGarage],
               saves := s.saves ++ [(d, s.myGarage)] } := by
    simp [fireTimer, ht, autoSaveGarage, hns]
  rw [h1]
  simp [completeSave, hin]

/-- The widget state one toggle-free schedule away from boot: timer
armed for t=1000, nothing saving. -/
def exampleArmedState : WidgetState := scheduleAutoSave (initState [vMustang]) 0

theorem save_failure_atomicity_witness :
    (fireTimer exampleArmedState 1000).saves = exampleArmedState.saves ++ [(1000, [vMustang])]
    ∧ (completeSave (fireTimer exampleArmedState 1000) false).myGarage = [vMustang]
    ∧ (completeSave (fireTimer exampleArmedState 1000) false).saves
      = (fireTimer exampleArmedState 1000).saves
    ∧ (completeSave (fireTimer exampleArmedState 1000) false).isSaving = false
    ∧ (completeSave (fireTimer exampleArmedState 1000) false).saveTimeout = none :=
  save_failure_atomicity exampleArmedState 1000 rfl rfl rfl

/-- During a burst, the armed debounce from the previous toggle never
comes due before the next toggle, so each toggle just rearms it. -/
theorem processToggles_burst :
    ∀ (rest : List (Vehicle × Nat)) (prev : Nat) (s : WidgetState),
      s.saveTimeout = some (prev + 1000) → s.isSaving = false →
      burstFrom prev rest = true →
      processToggles s rest =
        { myGarage := rest.foldl (fun g p => toggleVehicle g p.1) s.myGarage,
          saveTimeout := some (lastTimeFrom prev rest + 1000),
          isSaving := false,
          inflight := s.inflight,
          saves := s.saves } := by
  intro rest
  induction rest with
  | nil =>
    intro prev s h1 h2 _
    cases s
    simp_all [processToggles, lastTimeFrom]
  | cons p rest ih =>
    intro prev s h1 h2 hb
    obtain ⟨v, t⟩ := p
    simp only [burstFrom, Bool.and_eq_true, decide_eq_true_eq] at hb
    obtain ⟨⟨hlt, hlt2⟩, hb'⟩ := hb
    have hfd : fireDue s t = s := by
      simp [fireDue, h1, Nat.not_le.mpr hlt2]
    have hte : toggleEvent s v t =
        { myGarage := toggleVehicle s.myGarage v, saveTimeout := some (t + 1000),
          isSaving := s.isSaving, inflight := s.inflight, saves := s.saves } := rfl
    simp only [processToggles, hfd]
    rw [ih t (toggleEvent s v t) rfl (by rw [hte]; exact h2) hb']
    simp [hte, lastTimeFrom]

/-- C1: a burst of `N >= 1` toggles each arriving less than 1000ms after
the previous one, starting from an idle widget with no save in flight,
issues exactly one save call, fired 1000ms after the last toggle, and
its payload is the Selection as of the last toggle. -/
theorem debounce_coalescing (g0 : List Vehicle) (v1 : Vehicle) (t1 : Nat)
    (rest : List (Vehicle × Nat)) (hb : burstFrom t1 rest = true) :
    (finalize (processToggles (initState g0) ((v1, t1) :: rest))).saves
      = [(lastToggleTime ((v1, t1) :: rest) + 1000,
          applyToggles g0 (((v1, t1) :: rest).map Prod.fst))]
    ∧ (finalize (processToggles (initState g0) ((v1, t1) :: rest))).myGarage
      = applyToggles g0 (((v1, t1) :: rest).map Prod.fst) := by
  have hfd : fireDue (initState g0) t1 = initState g0 := by
    simp [fireDue, initState]
  have hpt : processToggles (initState g0) ((v1, t1) :: rest)
      = processToggles (toggleEvent (initState g0) v1 t1) rest := by
    simp only [processToggles, hfd]
  have hte : toggleEvent (initState g0) v1 t1 =
      { myGarage := toggleVehicle g0 v1, saveTimeout := some (t1 + 1000),
        isSaving := false, inflight := [], saves := [] } := rfl
  rw [hpt, processToggles_burst rest t1 _ (by rw [hte]) (by rw [hte]) hb, hte]
  have hfold : rest.foldl (fun g p => toggleVehicle g p.1) (toggleVehicle g0 v1)
      = applyToggles g0 (((v1, t1) :: rest).map Prod.fst) := by
    simp [applyToggles, List.foldl_map]
  constructor
  · simp [finalize, fireTimer, autoSaveGarage, lastToggleTime, hfold]
  · simp [finalize, fireTimer, autoSaveGarage, hfold]

theorem debounce_coalescing_witness :
    (finalize (processToggles (initState [])
        [(vMustang, 0), (vF150, 500), (vMustang, 900)])).saves
      = [(1900, [vF150])]
    ∧ (finalize (processToggles (initState [])
        [(vMustang, 0), (vF150, 500), (vMustang, 900)])).myGarage = [vF150] :=
  debounce_coalescing [] vMustang 0 [(vF150, 500), (vMustang, 900)] (by decide)

/-- The single-flight invariant: a save call is outstanding exactly
while `isSaving` is set, and there is never more than one. -/
def singleFlightInv (s : WidgetState) : Prop :=
  s.inflight.length = (if s.isSaving then 1 else 0)

theorem singleFlightInv_step (s : WidgetState) (e : WEvent)
    (h : singleFlightInv s) : singleFlightInv (step s e) := by
  cases e with
  | toggle v t => simpa [step, toggleEvent, scheduleAutoSave, singleFlightInv] using h
  | fire t =>
    simp only [step, fireTimer]
    by_cases hm : s.saveTimeout = some t
    · rw [if_pos hm]
      simp only [autoSaveGarage]
      by_cases hs : s.isSaving
      · simpa [hs, singleFlightInv] using h
      · simp only [singleFlightInv] at h ⊢
        simp_all
    · rwa [if_neg hm]
  | complete t success =>
    simp only [step, completeSave]
    cases hin : s.inflight with
    | nil => simpa [singleFlightInv] using h
    | cons p rest =>
      simp only [singleFlightInv, hin] at h ⊢
      by_cases hs : s.isSaving
      · simp [hs] at h
        simp [h]
      · simp [hs] at h

theorem singleFlightInv_run (events : List WEvent) :
    ∀ s : WidgetState, singleFlightInv s → singleFlightInv (run s events) := by
  induction events with
  | nil => intro s h; exact h
  | cons e es ih => intro s h; exact ih _ (singleFlightInv_step s e h)

/-- C2: in every execution reachable from boot, at most one save call is
outstanding at any time, and a debounce fire while a save is in flight
issues no call and changes nothing but consuming the timer. -/
theorem save_single_flight :
    (∀ (g0 : List Vehicle) (events : List WEvent),
      ((run (initState g0) events).inflight).length ≤ 1)
    ∧ (∀ (s : WidgetState) (now : Nat), s.isSaving = true →
      autoSaveGarage s now = s) := by
  constructor
  · intro g0 events
    have h := singleFlightInv_run events (initState g0) rfl
    rw [singleFlightInv] at h
    rw [h]
    by_cases hs : (run (initState g0) events).isSaving <;> simp [hs]
  · intro s now hs
    simp [autoSaveGarage, hs]

theorem save_single_flight_witness :
    ((run (initState []) [.toggle vMustang 0, .fire 1000, .toggle vF150 1100,
        .complete 1200 true, .fire 2100]).inflight).length ≤ 1
    ∧ autoSaveGarage (fireTimer exampleArmedState 1000) 2000
        = fireTimer exampleArmedState 1000 :=
  ⟨save_single_flight.1 [] _, save_single_flight.2 _ 2000 rfl⟩

/-- C3 (counterexample): a toggle at t=1200 arrives while the save
issued at t=1000 is in flight and rearms the debounce for t=2200, but
the save is still in flight at t=2200, so the fire is dropped; the save
completes at t=2500 with nothing rearmed.  The whole execution ends
quiescent with exactly one save ever issued — no second save follows,
and its payload never included the second toggle's effect. -/
theorem toggle_during_save_counterexample :
    (run (initState []) [.toggle vMustang 0, .fire 1000, .toggle vF150 1200,
        .fire 2200, .complete 2500 true]).saves = [(1000, [vMustang])]
    ∧ (run (initState []) [.toggle vMustang 0, .fire 1000, .toggle vF150 1200,
        .fire 2200, .complete 2500 true]).myGarage = [vMustang, vF150]
    ∧ (run (initState []) [.toggle vMustang 0, .fire 1000, .toggle vF150 1200,
        .fire 2200, .complete 2500 true]).inflight = []
    ∧ (run (initState []) [.toggle vMustang 0, .fire 1000, .toggle vF150 1200,
        .fire 2200, .complete 2500 true]).isSaving = false
    ∧ (run (initState []) [.toggle vMustang 0, .fire 1000, .toggle vF150 1200,
        .fire 2200, .complete 2500 true]).saveTimeout = none := by
  refine ⟨by decide, by decide, by decide, by decide, by decide⟩

/-- C3 (amended): a toggle during an in-flight save arms a new debounce
and neither cancels nor alters the in-flight call or its snapshotted
body; if the save completes before the rearmed debounce fires, the fire
then issues a second save whose payload includes the toggle's effect,
but if the debounce fires while the save is still in flight the fire is
dropped and no second save is issued by it. -/
theorem toggle_during_save_amended (s : WidgetState) (v : Vehicle) (t tc : Nat)
    (hs : s.isSaving = true) (p : List Vehicle) (rest : List (List Vehicle))
    (hin : s.inflight = p :: rest) :
    (toggleEvent s v t).saveTimeout = some (t + 1000)
    ∧ (toggleEvent s v t).inflight = s.inflight
    ∧ (toggleEvent s v t).saves = s.saves
    ∧ (toggleEvent s v t).myGarage = toggleVehicle s.myGarage v
    ∧ (run (toggleEvent s v t) [.fire (t + 1000)]).saves = s.saves
    ∧ (run (toggleEvent s v t) [.complete tc true, .fire (t + 1000)]).saves
        = s.saves ++ [(t + 1000, toggleVehicle s.myGarage v)] := by
  refine ⟨rfl, rfl, rfl, rfl, ?_, ?_⟩
  · simp [run, step, fireTimer, toggleEvent, scheduleAutoSave, autoSaveGarage, hs]
  · simp [run, step, completeSave, toggleEvent, scheduleAutoSave, hin,
      fireTimer, autoSaveGarage]

/-- A state with one save in flight, as after `fire 1000` from the
armed example state. -/
def exampleSavingState : WidgetState := fireTimer exampleArmedState 1000

theorem toggle_during_save_amended_witness :
    (toggleEvent exampleSavingState vF150 1200).saveTimeout = some 2200
    ∧ (toggleEvent exampleSavingState vF150 1200).inflight = exampleSavingState.inflight
    ∧ (toggleEvent exampleSavingState vF150 1200).saves = exampleSavingState.saves
    ∧ (toggleEvent exampleSavingState vF150 1200).myGarage
        = toggleVehicle exampleSavingState.myGarage vF150
    ∧ (run (toggleEvent exampleSavingState vF150 1200) [.fire 2200]).saves
        = exampleSavingState.saves
    ∧ (run (toggleEvent exampleSavingState vF150 1200)
        [.complete 1500 true, .fire 2200]).saves
        = exampleSavingState.saves
          ++ [(2200, toggleVehicle exampleSavingState.myGarage vF150)] :=
  toggle_during_save_amended exampleSavingState vF150 1200 1500 rfl [vMustang] [] rfl

end Garage

